import Mathlib

/-!
Shallow embedding of the transaction-lifecycle slice of
`src/patch/marginfi-client-v2/src/client.ts` (the `MarginfiClient` class):
message compilation limits, dual-mode broadcast (single-shot vs. spam-resend),
confirmation polling, blockhash-expiry timeout, error classification, the
Jito relay path, the simulation path, and the client-state wiring of
`fetch`/`reload`.

Network calls are modelled by oracles (functions giving the value each RPC
round-trip returns, or the exception it raises), and each method is a pure
function from its oracle environment to the list of observable calls it makes
(its trace) together with its outcome.  Unbounded `while (true)` loops take a
fuel argument; `outOfFuel` marks the executions longer than the fuel, and the
theorems quantify over every sufficient fuel.
-/

namespace Asgard

/-- Confirmation tiers reported by `getSignatureStatus`
(`confirmationStatus` field of web3.js `SignatureStatus`). -/
inductive ConfStatus
  | processed
  | confirmed
  | finalized
  deriving DecidableEq, Repr

/-- The `ProcessTransactionErrorType` enum imported from `./errors`
(variants as used in client.ts). -/
inductive PTErrorType
  | TransactionBuildingError
  | SimulationError
  | TimeoutError
  | FallthroughError
  deriving DecidableEq, Repr

/-- A `ProcessTransactionError` value: message, typed kind, optional log lines. -/
structure PTError where
  message : String
  errorType : PTErrorType
  logs : Option (List String) := none
  deriving DecidableEq, Repr

/-- A JavaScript exception as seen by the catch blocks of client.ts:
either a web3.js `SendTransactionError` (whose `logs` field may be absent),
a `ProcessTransactionError` raised inside the try body (the in-loop
TimeoutError is one), or any other error carrying only a message. -/
inductive JsError
  | sendTransactionError (message : String) (logs : Option (List String))
  | processTxError (e : PTError)
  | generic (message : String)
  deriving DecidableEq, Repr

/-- The `.message` property of a JavaScript error. -/
def JsError.message : JsError → String
  | .sendTransactionError m _ => m
  | .processTxError e => e.message
  | .generic m => m

/-- Result of `connection.getLatestBlockhashAndContext()`:
`value.blockhash`, `value.lastValidBlockHeight`, `context.slot`. -/
structure BlockhashSnapshot where
  blockhash : String
  lastValidBlockHeight : Nat
  contextSlot : Int
  deriving DecidableEq, Repr

/-- `response.value` of `connection.simulateTransaction`.  The `err` field is
kept in its JSON-serialized string form (client.ts only ever passes it
through `JSON.stringify`). -/
structure SimResponse where
  err : Option String
  logs : Option (List String)
  unitsConsumed : Nat
  accounts : Option (List (Option String))
  deriving DecidableEq, Repr

/-- A compiled `VersionedTransaction`: its serialized size
(`message.serialize().length`), its resolved account-key count
(`message.getAccountKeys(...).length`), its raw signed bytes
(`serialize()`), and its first signature rendered as a string
(`signatures[0].toString()`). -/
structure Tx where
  serializedSize : Nat
  accountKeyCount : Nat
  raw : List Nat
  firstSig : String
  deriving DecidableEq, Repr

/-- Options object passed to `sendTransaction` / `sendRawTransaction`.
A `none` field is a key that is absent from the literal in the source. -/
structure SendOptions where
  skipPreflight : Option Bool := none
  preflightCommitment : Option String := none
  maxRetries : Option Nat := none
  minContextSlot : Option Int := none
  deriving DecidableEq, Repr

/-- Options object passed to `getSignatureStatus`.  A `none` field is a key
absent from the literal in the source (the jito loop passes no object at
all, modelled as both fields `none`). -/
structure StatusOptions where
  searchTransactionHistory : Option Bool := none
  minContextSlot : Option Int := none
  deriving DecidableEq, Repr

/-- Configuration object passed to `simulateTransaction`:
either the caller-supplied `opts` object (taken whole, via `opts ?? {...}`),
the default literal `{ minContextSlot, sigVerify: false }`, or the
accounts-inspecting literal used by the `simulateTransaction` method. -/
inductive SimCallConfig
  | callerOpts
  | defaults (minContextSlot : Int) (sigVerify : Bool)
  | withAccounts (sigVerify : Bool) (addresses : List String)
  deriving DecidableEq, Repr

/-- One observable call made by a client method. -/
inductive Event
  | getLatestBlockhashAndContext
  | simulate (cfg : SimCallConfig)
  | walletSign
  | send (tx : Tx) (opts : SendOptions)
  | getSignatureStatus (sig : String) (opts : StatusOptions)
  | getBlockHeight
  | confirmTransaction (commitment : String)
  | sleep (ms : Nat)
  | relayPost (url : String)
  deriving DecidableEq, Repr

/-- Whether an event is a `sendTransaction` / `sendRawTransaction` call. -/
def Event.isSend : Event → Bool
  | .send _ _ => true
  | _ => false

/-- Whether an event is a `getSignatureStatus` call. -/
def Event.isPoll : Event → Bool
  | .getSignatureStatus _ _ => true
  | _ => false

/-- Whether an event is a `simulateTransaction` call. -/
def Event.isSimulate : Event → Bool
  | .simulate _ => true
  | _ => false

/-- The `minContextSlot` carried by a status-poll event (`none` for any
other event, and for a poll whose options omit the field). -/
def Event.pollMinContextSlot : Event → Option Int
  | .getSignatureStatus _ o => o.minContextSlot
  | _ => none

/-- The `TransactionOptions` object callers may pass (extends web3.js
`ConfirmOptions` with `dryRun`); every field optional. -/
structure TransactionOptions where
  dryRun : Option Bool := none
  skipPreflight : Option Bool := none
  preflightCommitment : Option String := none
  maxRetries : Option Nat := none
  minContextSlot : Option Int := none
  commitment : Option String := none
  deriving DecidableEq, Repr

/-- The `ProcessTransactionError` thrown inside the spam loops on blockhash
expiry (client.ts:653-656 and 832-835, message verbatim from the source). -/
def timeoutPTError : PTError :=
  { message := "Transaction was not confirmed within †he alloted time"
    errorType := .TimeoutError
    logs := none }

/-- The shared catch block of `processTransaction` (client.ts:682-698) and
`sendAndConfirmTransaction` (client.ts:863-879): a `SendTransactionError`
whose `logs` property is set becomes a `SimulationError` whose description
is `parseErrorFromLogs(...)?.description ?? error.message` with the logs
attached; any other caught error becomes a `FallthroughError` carrying
`error.message`.  `parse` stands for
`logs ↦ parseErrorFromLogs(logs, this.config.programId)?.description`. -/
def classifyCatch (parse : List String → Option String) (e : JsError) : PTError :=
  match e with
  | .sendTransactionError msg (some logs) =>
    { message := (parse logs).getD msg, errorType := .SimulationError, logs := some logs }
  | e => { message := e.message, errorType := .FallthroughError, logs := none }

/-- The status-poll sub-loop `for (let i = 0; i < 5; i++)` over a list of
`getSignatureStatus` results (`none` = `value` was null; `some none` =
`value` present but `confirmationStatus` absent).  Returns the events it
performs and whether the `hit` predicate fired (the `status = ...; break`
path).  A non-breaking attempt sleeps `sleepMs` before the next one. -/
def subPollList (hit : Option (Option ConfStatus) → Bool) (sig : String) (sleepMs : Nat) :
    List (Option (Option ConfStatus)) → List Event × Bool
  | [] => ([], false)
  | v :: rest =>
    let ev := Event.getSignatureStatus sig
      { searchTransactionHistory := some false, minContextSlot := none }
    if hit v then ([ev], true)
    else
      let r := subPollList hit sig sleepMs rest
      (ev :: Event.sleep sleepMs :: r.1, r.2)

/-- The five observations the sub-loop polls, in order. -/
def pollWindow (st : Nat → Option (Option ConfStatus)) : List (Option (Option ConfStatus)) :=
  (List.range 5).map st

/-- One full run of the 5-attempt sub-poll. -/
def subPoll (hit : Option (Option ConfStatus) → Bool) (st : Nat → Option (Option ConfStatus))
    (sig : String) (sleepMs : Nat) : List Event × Bool :=
  subPollList hit sig sleepMs (pollWindow st)

/-- Whether some of the five observations fires the predicate. -/
def windowHit (hit : Option (Option ConfStatus) → Bool)
    (st : Nat → Option (Option ConfStatus)) : Bool :=
  (pollWindow st).any hit

/-- Break condition of `processTransaction`'s sub-poll (client.ts:644):
`signatureStatus.value?.confirmationStatus === 'finalized'`. -/
def ptPollHit (v : Option (Option ConfStatus)) : Bool :=
  decide (v.join = some ConfStatus.finalized)

/-- Break condition of `sendAndConfirmTransaction`'s sub-poll
(client.ts:823): `'processed' || 'confirmed' || 'finalized'`. -/
def sacPollHit (v : Option (Option ConfStatus)) : Bool :=
  decide (v.join = some ConfStatus.processed) ||
    decide (v.join = some ConfStatus.confirmed) ||
    decide (v.join = some ConfStatus.finalized)

/-- The parameters distinguishing the two spam-mode `while (true)` loops. -/
structure SpamParams where
  hit : Option (Option ConfStatus) → Bool
  sendOpts : SendOptions
  sleepMs : Nat

/-- Oracles feeding one spam loop: per outer iteration `k`, the result of the
`sendTransaction` call, the five `getSignatureStatus` observations, and the
`getBlockHeight` observation. -/
structure SpamEnv where
  sendResults : Nat → Except JsError String
  statuses : Nat → Nat → Option (Option ConfStatus)
  heights : Nat → Nat

/-- Outcome of a try-body fragment: a returned signature, a raised
JavaScript exception (to be classified by the catch block), or fuel
exhaustion of the model. -/
inductive LoopOutcome
  | ok (sig : String)
  | raised (e : JsError)
  | outOfFuel
  deriving DecidableEq, Repr

/-- The spam-mode `while (true)` loop (client.ts:634-662 and 807-841):
send the same signed transaction, run the 5-attempt status sub-poll, fetch
the block height, throw the typed `TimeoutError` if it strictly exceeds
`lastValidBlockHeight`, otherwise break when the sub-poll fired; `status`
is the loop-carried `let status = "pending"` flag. -/
def spamLoopGo (p : SpamParams) (tx : Tx) (env : SpamEnv) (lvbh : Nat) :
    Nat → Nat → Bool → List Event × LoopOutcome
  | _, 0, _ => ([], .outOfFuel)
  | k, fuel + 1, status =>
    match env.sendResults k with
    | .error e => ([Event.send tx p.sendOpts], .raised e)
    | .ok sig =>
      let poll := subPoll p.hit (env.statuses k) sig p.sleepMs
      let status' := status || poll.2
      let evs := Event.send tx p.sendOpts :: poll.1 ++ [Event.getBlockHeight]
      if env.heights k > lvbh then
        (evs, .raised (.processTxError timeoutPTError))
      else if status' then (evs, .ok sig)
      else
        let r := spamLoopGo p tx env lvbh (k + 1) fuel status'
        (evs ++ r.1, r.2)

/-- `sendTransaction` options of `processTransaction`'s spam loop
(client.ts:635-639): only `maxRetries: 0`. -/
def ptSpamSendOpts : SendOptions :=
  { maxRetries := some 0 }

/-- `sendTransaction` options of `sendAndConfirmTransaction`'s spam loop
(client.ts:808-814): `skipPreflight: true, maxRetries: 0`. -/
def sacSpamSendOpts : SendOptions :=
  { skipPreflight := some true, maxRetries := some 0 }

/-- Spam-loop parameters of `processTransaction`: break only on
`finalized`, sleep 200 ms. -/
def ptSpamParams : SpamParams :=
  { hit := ptPollHit, sendOpts := ptSpamSendOpts, sleepMs := 200 }

/-- Spam-loop parameters of `sendAndConfirmTransaction`: break on
`processed`/`confirmed`/`finalized`, sleep 400 ms. -/
def sacSpamParams : SpamParams :=
  { hit := sacPollHit, sendOpts := sacSpamSendOpts, sleepMs := 400 }

/-- The client flags read by the submission methods, plus the two imported
ambient values they close over: `parse` is
`logs ↦ parseErrorFromLogs(logs, this.config.programId)?.description`
from `./errors`, and `defaultConfirmOpts` is the imported
`DEFAULT_CONFIRM_OPTS` constant from `@mrgnlabs/mrgn-common`. -/
structure ClientConfig where
  spamSendTx : Bool
  skipPreflightInSpam : Bool
  isReadOnly : Bool
  parse : List String → Option String
  defaultConfirmOpts : TransactionOptions

/-- The `mergedOpts` computation (client.ts:613-619 and 776-782):
spread `DEFAULT_CONFIRM_OPTS`, override (preflight)commitment with
`connection.commitment ?? DEFAULT_CONFIRM_OPTS.commitment`, set
`minContextSlot`, then spread the caller's `opts` whose present fields win. -/
def mergedConfirmOpts (defaults : TransactionOptions) (connCommitment : Option String)
    (minContextSlot : Int) (opts : Option TransactionOptions) : TransactionOptions :=
  let base : TransactionOptions :=
    { defaults with
      commitment := connCommitment <|> defaults.commitment
      preflightCommitment := connCommitment <|> defaults.commitment
      minContextSlot := some minContextSlot }
  match opts with
  | none => base
  | some o =>
    { dryRun := o.dryRun <|> base.dryRun
      skipPreflight := o.skipPreflight <|> base.skipPreflight
      preflightCommitment := o.preflightCommitment <|> base.preflightCommitment
      maxRetries := o.maxRetries <|> base.maxRetries
      minContextSlot := o.minContextSlot <|> base.minContextSlot
      commitment := o.commitment <|> base.commitment }

/-- Options of the single-shot `sendTransaction` in `processTransaction`
(client.ts:664-669): `skipPreflight`, `preflightCommitment` and
`maxRetries` from `mergedOpts`; `minContextSlot` is commented out. -/
def ptSingleSendOpts (merged : TransactionOptions) : SendOptions :=
  { skipPreflight := merged.skipPreflight
    preflightCommitment := merged.preflightCommitment
    maxRetries := merged.maxRetries
    minContextSlot := none }

/-- Oracles feeding one `processTransaction` call: the blockhash fetch, the
compile-and-locally-sign step, the wallet signature, the preflight/dry-run
simulation, the spam-loop oracles, the single-shot send and the
`confirmTransaction` wait, plus the connection's ambient commitment and the
model's loop fuel. -/
structure PTEnv where
  blockhashResult : Except JsError BlockhashSnapshot
  buildResult : Except JsError Tx
  walletSignResult : Except JsError Tx
  simResult : Except JsError SimResponse
  spam : SpamEnv
  singleSendResult : Except JsError String
  confirmResult : Except JsError Unit
  connCommitment : Option String
  fuel : Nat

/-- The simulate-call configuration `opts ?? { minContextSlot, sigVerify: false }`
(client.ts:581-584, 626-629, 793-796). -/
def simCfgOf (opts : Option TransactionOptions) (minContextSlot : Int) : SimCallConfig :=
  match opts with
  | some _ => .callerOpts
  | none => .defaults minContextSlot false

/-- Optional pre-send simulation of the spam branch (client.ts:624-632 and
790-805): when `skipPreflightInSpam`, simulate and raise a
`SendTransactionError (JSON.stringify(err), logs ?? [])` on a program-level
failure; returns the events performed and `some outcome` when the branch
raised. -/
def spamPreflight (skipPreflightInSpam : Bool) (opts : Option TransactionOptions)
    (minContextSlot : Int) (simResult : Except JsError SimResponse) :
    List Event × Option LoopOutcome :=
  if skipPreflightInSpam then
    let cfgSim := simCfgOf opts minContextSlot
    match simResult with
    | .error e => ([Event.simulate cfgSim], some (.raised e))
    | .ok resp =>
      match resp.err with
      | some errStr =>
        ([Event.simulate cfgSim],
          some (.raised (.sendTransactionError errStr (some (resp.logs.getD [])))))
      | none => ([Event.simulate cfgSim], none)
  else ([], none)

/-- The try body of `processTransaction` (client.ts:579-681), after the
blockhash and build steps succeeded with snapshot `snap` and compiled
transaction `tx0`. -/
def ptTryBody (cfg : ClientConfig) (opts : Option TransactionOptions) (env : PTEnv)
    (snap : BlockhashSnapshot) (tx0 : Tx) : List Event × LoopOutcome :=
  let minContextSlot : Int := snap.contextSlot - 4
  if (opts.bind (·.dryRun)).getD false || cfg.isReadOnly then
    let cfgSim := simCfgOf opts minContextSlot
    match env.simResult with
    | .error e => ([Event.simulate cfgSim], .raised e)
    | .ok resp =>
      match resp.err with
      | some errStr =>
        ([Event.simulate cfgSim],
          .raised (.sendTransactionError errStr (some (resp.logs.getD []))))
      | none => ([Event.simulate cfgSim], .ok tx0.firstSig)
  else
    match env.walletSignResult with
    | .error e => ([Event.walletSign], .raised e)
    | .ok tx1 =>
      if cfg.spamSendTx then
        let pre := spamPreflight cfg.skipPreflightInSpam opts minContextSlot env.simResult
        match pre.2 with
        | some out => (Event.walletSign :: pre.1, out)
        | none =>
          let r := spamLoopGo ptSpamParams tx1 env.spam snap.lastValidBlockHeight 0 env.fuel false
          (Event.walletSign :: pre.1 ++ r.1, r.2)
      else
        let merged := mergedConfirmOpts cfg.defaultConfirmOpts env.connCommitment
          minContextSlot opts
        match env.singleSendResult with
        | .error e => ([Event.walletSign, Event.send tx1 (ptSingleSendOpts merged)], .raised e)
        | .ok sig =>
          match env.confirmResult with
          | .error e =>
            ([Event.walletSign, Event.send tx1 (ptSingleSendOpts merged),
              Event.confirmTransaction "finalized"], .raised e)
          | .ok _ =>
            ([Event.walletSign, Event.send tx1 (ptSingleSendOpts merged),
              Event.confirmTransaction "finalized"], .ok sig)

/-- Outcome of a whole client method call. -/
inductive MethodOutcome
  | ok (sig : String)
  | err (e : PTError)
  | outOfFuel
  deriving DecidableEq, Repr

/-- `processTransaction` (client.ts:537-699).  The first try/catch turns any
blockhash-fetch or build failure into a `TransactionBuildingError`; the
second try/catch runs the dry-run / spam / single-shot body and classifies
anything it raises through the shared catch block. -/
def processTransaction (cfg : ClientConfig) (opts : Option TransactionOptions) (env : PTEnv) :
    List Event × MethodOutcome :=
  match env.blockhashResult with
  | .error e =>
    ([Event.getLatestBlockhashAndContext],
      .err { message := e.message, errorType := .TransactionBuildingError, logs := none })
  | .ok snap =>
    match env.buildResult with
    | .error e =>
      ([Event.getLatestBlockhashAndContext],
        .err { message := e.message, errorType := .TransactionBuildingError, logs := none })
    | .ok tx0 =>
      let r := ptTryBody cfg opts env snap tx0
      (Event.getLatestBlockhashAndContext :: r.1,
        match r.2 with
        | .ok s => .ok s
        | .raised e => .err (classifyCatch cfg.parse e)
        | .outOfFuel => .outOfFuel)

/-- Oracles feeding one `sendAndConfirmTransaction` call. -/
structure SacEnv where
  blockhashResult : Except JsError BlockhashSnapshot
  simResult : Except JsError SimResponse
  spam : SpamEnv
  singleSendResult : Except JsError String
  confirmResult : Except JsError Unit
  connCommitment : Option String
  fuel : Nat

/-- Options of the single-shot `sendTransaction` in
`sendAndConfirmTransaction` (client.ts:845-849): only
`preflightCommitment: 'processed'` is present. -/
def sacSingleSendOpts : SendOptions :=
  { preflightCommitment := some "processed" }

/-- The try body of `sendAndConfirmTransaction` (client.ts:769-862); unlike
`processTransaction`, the blockhash fetch happens inside this single try,
so its failure is classified by the shared catch block too. -/
def sacTryBody (cfg : ClientConfig) (opts : Option TransactionOptions) (env : SacEnv)
    (tx : Tx) : List Event × LoopOutcome :=
  match env.blockhashResult with
  | .error e => ([Event.getLatestBlockhashAndContext], .raised e)
  | .ok snap =>
    let minContextSlot : Int := snap.contextSlot - 4
    if cfg.spamSendTx then
      let pre := spamPreflight cfg.skipPreflightInSpam opts minContextSlot env.simResult
      match pre.2 with
      | some out => (Event.getLatestBlockhashAndContext :: pre.1, out)
      | none =>
        let r := spamLoopGo sacSpamParams tx env.spam snap.lastValidBlockHeight 0 env.fuel false
        (Event.getLatestBlockhashAndContext :: pre.1 ++ r.1, r.2)
    else
      match env.singleSendResult with
      | .error e =>
        ([Event.getLatestBlockhashAndContext, Event.send tx sacSingleSendOpts], .raised e)
      | .ok sig =>
        match env.confirmResult with
        | .error e =>
          ([Event.getLatestBlockhashAndContext, Event.send tx sacSingleSendOpts,
            Event.confirmTransaction "processed"], .raised e)
        | .ok _ =>
          ([Event.getLatestBlockhashAndContext, Event.send tx sacSingleSendOpts,
            Event.confirmTransaction "processed"], .ok sig)

/-- `sendAndConfirmTransaction` (client.ts:755-880): the try body, with
anything it raises classified by the shared catch block. -/
def sendAndConfirmTransaction (cfg : ClientConfig) (opts : Option TransactionOptions)
    (env : SacEnv) (tx : Tx) : List Event × MethodOutcome :=
  let r := sacTryBody cfg opts env tx
  (r.1,
    match r.2 with
    | .ok s => .ok s
    | .raised e => .err (classifyCatch cfg.parse e)
    | .outOfFuel => .outOfFuel)

/-- Oracles feeding one `signTranscationJito` call: the blockhash fetch,
the compiled `VersionedTransaction` (tip and priority-fee instructions
already appended), the simulation, and the wallet signature. -/
structure SjEnv where
  snapshot : BlockhashSnapshot
  compiledTx : Tx
  simResult : Except JsError SimResponse
  walletSignResult : Except JsError Tx

/-- Result of `signTranscationJito`: `tooBig` is the `return false` path,
`signed` the returned signed transaction, `err` a thrown
`ProcessTransactionError`, `thrown` a thrown plain `Error`. -/
inductive SjOutcome
  | tooBig
  | signed (tx : Tx)
  | err (e : PTError)
  | thrown (msg : String)
  deriving DecidableEq, Repr

/-- `signTranscationJito` (client.ts:882-981): reject a zero tip, fetch the
blockhash, compile, check `totalSize > 1232 || totalKeys >= 64` and return
`false` when it holds, simulate (its `value.err` is only logged, never
checked), then wallet-sign.  The simulate catch is the shared classifier;
the sign catch is a direct `FallthroughError`. -/
def signTranscationJito (cfg : ClientConfig) (jitoTip : Int) (env : SjEnv) :
    List Event × SjOutcome :=
  if jitoTip = 0 then ([], .thrown "Jito bundle tip has not been set.")
  else
    let minContextSlot : Int := env.snapshot.contextSlot - 4
    let vTx := env.compiledTx
    if vTx.serializedSize > 1232 ∨ vTx.accountKeyCount ≥ 64 then
      ([Event.getLatestBlockhashAndContext], .tooBig)
    else
      let simEv := Event.simulate (.defaults minContextSlot false)
      match env.simResult with
      | .error e =>
        ([Event.getLatestBlockhashAndContext, simEv], .err (classifyCatch cfg.parse e))
      | .ok _resp =>
        match env.walletSignResult with
        | .error e =>
          ([Event.getLatestBlockhashAndContext, simEv, Event.walletSign],
            .err { message := e.message, errorType := .FallthroughError, logs := none })
        | .ok signed =>
          ([Event.getLatestBlockhashAndContext, simEv, Event.walletSign], .signed signed)

/-- The fixed Jito relay endpoint (client.ts:990). -/
def jitoURL : String :=
  "https://mainnet.block-engine.jito.wtf/api/v1/transactions"

/-- Options of the in-loop `sendRawTransaction` resend (client.ts:1023-1027). -/
def jitoResendOpts (connCommitment : Option String) : SendOptions :=
  { skipPreflight := some true
    preflightCommitment := connCommitment
    maxRetries := some 0 }

/-- The confirmation test of the jito loop (client.ts:1037-1043):
`value != null` and `confirmationStatus` one of
`processed`/`confirmed`/`finalized`. -/
def jitoConfirming (v : Option (Option ConfStatus)) : Bool :=
  match v with
  | none => false
  | some inner =>
    decide (inner = some ConfStatus.processed) ||
      decide (inner = some ConfStatus.confirmed) ||
      decide (inner = some ConfStatus.finalized)

/-- Oracles feeding one `sendAndConfirmTrancationJito` call: the relay POST
result, the `getLatestBlockhash` expiry height, then per loop round `k` the
`getBlockHeight` observation guarding round `k` (`heights 0` is the
pre-loop fetch; round `k` refetches `heights (k+1)`), the resend result and
the status observation. -/
structure JitoEnv where
  relayResult : Except String String
  lastValidBlockHeight : Nat
  heights : Nat → Nat
  statuses : Nat → Option (Option ConfStatus)
  connCommitment : Option String
  fuel : Nat

/-- Outcome of `sendAndConfirmTrancationJito`: the relay signature, a thrown
plain `Error`, or model fuel exhaustion. -/
inductive JitoOutcome
  | ok (sig : String)
  | thrown (msg : String)
  | outOfFuel
  deriving DecidableEq, Repr

/-- The `while (currentBlockHeight < lastValidBlockHeight)` loop of
`sendAndConfirmTrancationJito` (client.ts:1021-1046): each round resends
the raw bytes, polls the relay signature's status with no options object,
refetches the height, returns the relay signature on a confirming status,
else sleeps 500 ms; when the guard fails the method throws
`Transaction ${txSig} was not confirmed`. -/
def jitoLoopGo (tx : Tx) (env : JitoEnv) (txSig : String) :
    Nat → Nat → List Event × JitoOutcome
  | _, 0 => ([], .outOfFuel)
  | k, fuel + 1 =>
    if env.heights k < env.lastValidBlockHeight then
      let evs := [Event.send tx (jitoResendOpts env.connCommitment),
        Event.getSignatureStatus txSig
          { searchTransactionHistory := none, minContextSlot := none },
        Event.getBlockHeight]
      if jitoConfirming (env.statuses k) then (evs, .ok txSig)
      else
        let r := jitoLoopGo tx env txSig (k + 1) fuel
        (evs ++ Event.sleep 500 :: r.1, r.2)
    else ([], .thrown ("Transaction " ++ txSig ++ " was not confirmed"))

/-- `sendAndConfirmTrancationJito` (client.ts:982-1047): POST the signed
bytes to the relay (a failure throws the dedicated bundle error), fetch the
expiry height and the current height, then run the resend/poll loop. -/
def sendAndConfirmTrancationJito (tx : Tx) (env : JitoEnv) : List Event × JitoOutcome :=
  match env.relayResult with
  | .error _ => ([Event.relayPost jitoURL], .thrown "Jito Bundle Error: cannot send.")
  | .ok txSig =>
    let r := jitoLoopGo tx env txSig 0 env.fuel
    (Event.relayPost jitoURL :: Event.getLatestBlockhashAndContext ::
      Event.getBlockHeight :: r.1, r.2)

/-- Oracles feeding one `simulateTransaction` method call. -/
structure StEnv where
  blockhashResult : Except JsError BlockhashSnapshot
  buildResult : Except JsError Tx
  simResult : Except JsError SimResponse

/-- Outcome of the `simulateTransaction` method: the decoded account
snapshots, a thrown `ProcessTransactionError` (build failure), or a thrown
plain `Error` (the `throw new Error(error)` rewrap of the inner catch). -/
inductive StOutcome
  | ok (accounts : List (Option String))
  | err (e : PTError)
  | thrown (msg : String)
  deriving DecidableEq, Repr

/-- Whether the method returned normally. -/
def StOutcome.isOk : StOutcome → Bool
  | .ok _ => true
  | _ => false

/-- The `simulateTransaction` method (client.ts:1049-1090): build the
versioned transaction (failures become `TransactionBuildingError`), then
simulate with `{ sigVerify: false, accounts: {...} }`; a response with
`value.err != null` raises `new Error(JSON.stringify(err))`, and the inner
catch rewraps whatever it caught as `new Error(error)` (message
`"Error: " ++ the inner message`); on success return
`value.accounts?.map(decode) ?? []`. -/
def simulateTransactionMethod (accountsToInspect : List String) (env : StEnv) :
    List Event × StOutcome :=
  match env.blockhashResult with
  | .error e =>
    ([Event.getLatestBlockhashAndContext],
      .err { message := e.message, errorType := .TransactionBuildingError, logs := none })
  | .ok _snap =>
    match env.buildResult with
    | .error e =>
      ([Event.getLatestBlockhashAndContext],
        .err { message := e.message, errorType := .TransactionBuildingError, logs := none })
    | .ok _tx =>
      let simEv := Event.simulate (.withAccounts false accountsToInspect)
      match env.simResult with
      | .error e =>
        ([Event.getLatestBlockhashAndContext, simEv], .thrown ("Error: " ++ e.message))
      | .ok resp =>
        match resp.err with
        | some errStr =>
          ([Event.getLatestBlockhashAndContext, simEv], .thrown ("Error: " ++ errStr))
        | none =>
          ([Event.getLatestBlockhashAndContext, simEv], .ok (resp.accounts.getD []))

/-- The mutable fields of a `MarginfiClient` instance (payload types are
opaque identifiers; the class's `readonly` constructor properties are not
part of the mutable state). -/
structure ClientState where
  group : Nat
  banks : List (String × Nat)
  oraclePrices : List (String × Nat)
  addressLookupTables : List Nat
  preloadedBankAddresses : Option (List Nat)
  sendEndpoint : Option String
  spamSendTx : Bool
  skipPreflightInSpam : Bool
  deriving DecidableEq, Repr

/-- The record returned by `MarginfiClient.fetchGroupData`. -/
structure FetchedGroupData where
  marginfiGroup : Nat
  banks : List (String × Nat)
  priceInfos : List (String × Nat)
  deriving DecidableEq, Repr

/-- `reload` (client.ts:297-307): refetch the group data and assign exactly
`this.group`, `this.banks` and `this.oraclePrices`. -/
def reload (s : ClientState) (d : FetchedGroupData) : ClientState :=
  { s with group := d.marginfiGroup, banks := d.banks, oraclePrices := d.priceInfos }

/-- `processTransaction` contains no assignment to any `this.*` field
(client.ts:537-699 only reads the client), so its effect on the client
state is the identity. -/
def processTransactionStateEffect (s : ClientState) : ClientState := s

/-- `sendAndConfirmTransaction` contains no assignment to any `this.*` field
(client.ts:755-880), so its effect on the client state is the identity. -/
def sendAndConfirmStateEffect (s : ClientState) : ClientState := s

/-- `signTranscationJito` and `sendAndConfirmTrancationJito` contain no
assignment to any `this.*` field (client.ts:882-1047), so their effect on
the client state is the identity. -/
def jitoStateEffect (s : ClientState) : ClientState := s

/-- The `simulateTransaction` method contains no assignment to any `this.*`
field (client.ts:1049-1090), so its effect on the client state is the
identity. -/
def simulateStateEffect (s : ClientState) : ClientState := s

/-- The `MarginfiClient` constructor (client.ts:80-103) restricted to the
mutable state: the optional parameters `addressLookupTables ?? []`, and the
default-valued parameters `spamSendTx: boolean = true` and
`skipPreflightInSpam: boolean = true` (a `none` argument models an omitted
or `undefined` argument, which takes the default). -/
def mkMarginfiClient (group : Nat) (banks oraclePrices : List (String × Nat))
    (addressLookupTables : Option (List Nat)) (preloadedBankAddresses : Option (List Nat))
    (sendEndpoint : Option String) (spamSendTx : Option Bool)
    (skipPreflightInSpam : Option Bool) : ClientState :=
  { group := group
    banks := banks
    oraclePrices := oraclePrices
    addressLookupTables := addressLookupTables.getD []
    preloadedBankAddresses := preloadedBankAddresses
    sendEndpoint := sendEndpoint
    spamSendTx := spamSendTx.getD true
    skipPreflightInSpam := skipPreflightInSpam.getD true }

/-- The `MarginfiClientOptions` object accepted by `MarginfiClient.fetch`. -/
structure MarginfiClientOptions where
  readOnly : Option Bool := none
  sendEndpoint : Option String := none
  spamSendTx : Option Bool := none
  skipPreflightInSpam : Option Bool := none
  preloadedBankAddresses : Option (List Nat) := none
  deriving DecidableEq, Repr

/-- `MarginfiClient.fetch` (client.ts:115-182) restricted to the client
state it constructs: defaults `spamSendTx` and `skipPreflightInSpam` to
`false` via `clientOptions?.x ?? false` and passes them (and the loaded
lookup tables) explicitly to the constructor. -/
def fetchClient (clientOptions : Option MarginfiClientOptions)
    (groupData : FetchedGroupData) (lookupTables : List Nat) : ClientState :=
  let sendEndpoint := clientOptions.bind (·.sendEndpoint)
  let preloadedBankAddresses := clientOptions.bind (·.preloadedBankAddresses)
  let spamSendTx := (clientOptions.bind (·.spamSendTx)).getD false
  let skipPreflightInSpam := (clientOptions.bind (·.skipPreflightInSpam)).getD false
  mkMarginfiClient groupData.marginfiGroup groupData.banks groupData.priceInfos
    (some lookupTables) preloadedBankAddresses sendEndpoint
    (some spamSendTx) (some skipPreflightInSpam)

/-- A sub-poll run fires exactly when some polled observation satisfies the
break condition. -/
theorem subPollList_snd (hit : Option (Option ConfStatus) → Bool) (sig : String)
    (sleepMs : Nat) : ∀ l : List (Option (Option ConfStatus)),
    (subPollList hit sig sleepMs l).2 = l.any hit := by
  intro l
  induction l with
  | nil => rfl
  | cons v rest ih =>
    by_cases hv : hit v
    · simp [subPollList, hv]
    · simp [subPollList, hv, ih]

/-- Every event of a sub-poll run is a history-less status poll of the
current signature or the fixed sleep. -/
theorem subPollList_trace (hit : Option (Option ConfStatus) → Bool) (sig : String)
    (sleepMs : Nat) : ∀ l : List (Option (Option ConfStatus)), ∀ ev : Event,
    ev ∈ (subPollList hit sig sleepMs l).1 →
    ev = Event.getSignatureStatus sig
      { searchTransactionHistory := some false, minContextSlot := none } ∨
    ev = Event.sleep sleepMs := by
  intro l
  induction l with
  | nil => intro ev h; simp [subPollList] at h
  | cons v rest ih =>
    intro ev h
    by_cases hv : hit v
    · simp [subPollList, hv] at h
      exact Or.inl h
    · simp [subPollList, hv] at h
      rcases h with h | h | h
      · exact Or.inl h
      · exact Or.inr h
      · exact ih ev h

/-- A sub-poll run performs at most as many status polls as it has
observations to poll. -/
theorem subPollList_poll_count (hit : Option (Option ConfStatus) → Bool) (sig : String)
    (sleepMs : Nat) : ∀ l : List (Option (Option ConfStatus)),
    ((subPollList hit sig sleepMs l).1.countP Event.isPoll) ≤ l.length := by
  intro l
  induction l with
  | nil => simp [subPollList]
  | cons v rest ih =>
    by_cases hv : hit v
    · simp [subPollList, hv, List.countP_cons, Event.isPoll]
    · simp [subPollList, hv, List.countP_cons, Event.isPoll]
      omega

/-- The 5-attempt sub-poll fires exactly when one of its five observations
satisfies the break condition. -/
theorem subPoll_snd (hit : Option (Option ConfStatus) → Bool)
    (st : Nat → Option (Option ConfStatus)) (sig : String) (sleepMs : Nat) :
    (subPoll hit st sig sleepMs).2 = windowHit hit st :=
  subPollList_snd hit sig sleepMs (pollWindow st)

/-- Every event of the 5-attempt sub-poll is a history-less status poll or
the fixed sleep. -/
theorem subPoll_trace (hit : Option (Option ConfStatus) → Bool)
    (st : Nat → Option (Option ConfStatus)) (sig : String) (sleepMs : Nat) :
    ∀ ev ∈ (subPoll hit st sig sleepMs).1,
    ev = Event.getSignatureStatus sig
      { searchTransactionHistory := some false, minContextSlot := none } ∨
    ev = Event.sleep sleepMs :=
  fun ev h => subPollList_trace hit sig sleepMs (pollWindow st) ev h

/-- Whether an iteration of the spam loop lets the loop continue: the send
succeeded, the observed height did not exceed the expiry height, and none
of the five status polls fired. -/
def spamIterContinues (p : SpamParams) (env : SpamEnv) (lvbh : Nat) (j : Nat) : Prop :=
  (∃ s, env.sendResults j = .ok s) ∧ env.heights j ≤ lvbh ∧
    windowHit p.hit (env.statuses j) = false

/-- Running the spam loop through `m` continuing iterations reaches
iteration `k + m` with the fuel reduced by `m` and the pending-status flag
still false. -/
theorem spamLoopGo_skip (p : SpamParams) (tx : Tx) (env : SpamEnv) (lvbh : Nat) :
    ∀ m k fuel, (∀ j, k ≤ j → j < k + m → spamIterContinues p env lvbh j) →
    (spamLoopGo p tx env lvbh k (m + fuel) false).2 =
      (spamLoopGo p tx env lvbh (k + m) fuel false).2 := by
  intro m
  induction m with
  | zero => intro k fuel _; rw [Nat.zero_add, Nat.add_zero]
  | succ m ih =>
    intro k fuel hclean
    have hk : spamIterContinues p env lvbh k := hclean k (Nat.le_refl k) (by omega)
    obtain ⟨⟨s, hs⟩, hh, hw⟩ := hk
    have : m + 1 + fuel = (m + fuel) + 1 := by omega
    rw [this]
    simp only [spamLoopGo, hs]
    rw [subPoll_snd, hw]
    simp only [Bool.or_false]
    rw [if_neg (by omega)]
    simp only [if_false, Bool.false_eq_true]
    have := ih (k + 1) fuel (by intro j h1 h2; exact hclean j (by omega) (by omega))
    rw [this]
    have : k + 1 + m = k + (m + 1) := by omega
    rw [this]

/-- An iteration whose observed block height strictly exceeds the expiry
height raises the typed timeout, whatever the status polls reported. -/
theorem spamLoopGo_step_timeout (p : SpamParams) (tx : Tx) (env : SpamEnv) (lvbh : Nat)
    (k fuel : Nat) (status : Bool) (s : String) (hs : env.sendResults k = .ok s)
    (hh : env.heights k > lvbh) :
    (spamLoopGo p tx env lvbh k (fuel + 1) status).2 =
      .raised (.processTxError timeoutPTError) := by
  simp only [spamLoopGo, hs]
  rw [if_pos hh]

/-- An iteration whose status polls fired and whose observed block height
did not exceed the expiry height returns the iteration's signature. -/
theorem spamLoopGo_step_confirm (p : SpamParams) (tx : Tx) (env : SpamEnv) (lvbh : Nat)
    (k fuel : Nat) (status : Bool) (s : String) (hs : env.sendResults k = .ok s)
    (hh : env.heights k ≤ lvbh) (hw : windowHit p.hit (env.statuses k) = true) :
    (spamLoopGo p tx env lvbh k (fuel + 1) status).2 = .ok s := by
  simp only [spamLoopGo, hs]
  rw [subPoll_snd, hw]
  rw [if_neg (by omega)]
  simp

/-- Every event the spam loop emits is a send of the fixed signed
transaction with the branch's fixed options, a history-less status poll, a
block-height read, or the branch's fixed sleep. -/
theorem spamLoopGo_trace (p : SpamParams) (tx : Tx) (env : SpamEnv) (lvbh : Nat) :
    ∀ fuel k status, ∀ ev ∈ (spamLoopGo p tx env lvbh k fuel status).1,
    ev = Event.send tx p.sendOpts ∨ ev = Event.getBlockHeight ∨
    ev = Event.sleep p.sleepMs ∨
    (∃ sig, ev = Event.getSignatureStatus sig
      { searchTransactionHistory := some false, minContextSlot := none }) := by
  intro fuel
  induction fuel with
  | zero => intro k status ev h; simp [spamLoopGo] at h
  | succ fuel ih =>
    intro k status ev h
    cases hs : env.sendResults k with
    | error e =>
      simp only [spamLoopGo, hs] at h
      simp at h
      exact Or.inl h
    | ok s =>
      simp only [spamLoopGo, hs] at h
      split at h
      · simp at h
        rcases h with h | h | h
        · exact Or.inl h
        · rcases subPoll_trace p.hit (env.statuses k) s p.sleepMs ev h with h' | h'
          · exact Or.inr (Or.inr (Or.inr ⟨s, h'⟩))
          · exact Or.inr (Or.inr (Or.inl h'))
        · exact Or.inr (Or.inl h)
      · split at h
        · simp at h
          rcases h with h | h | h
          · exact Or.inl h
          · rcases subPoll_trace p.hit (env.statuses k) s p.sleepMs ev h with h' | h'
            · exact Or.inr (Or.inr (Or.inr ⟨s, h'⟩))
            · exact Or.inr (Or.inr (Or.inl h'))
          · exact Or.inr (Or.inl h)
        · simp at h
          rcases h with h | h | h | h
          · exact Or.inl h
          · rcases subPoll_trace p.hit (env.statuses k) s p.sleepMs ev h with h' | h'
            · exact Or.inr (Or.inr (Or.inr ⟨s, h'⟩))
            · exact Or.inr (Or.inr (Or.inl h'))
          · exact Or.inr (Or.inl h)
          · exact ih (k + 1) _ ev h

/-- Running the spam loop through `k` continuing iterations and then one
whose observed height strictly exceeds the expiry height raises the typed
timeout, whatever that iteration's status polls reported. -/
theorem spamLoop_reaches_timeout (p : SpamParams) (tx : Tx) (env : SpamEnv)
    (lvbh k fuel : Nat) (s : String)
    (hclean : ∀ j, j < k → spamIterContinues p env lvbh j)
    (hs : env.sendResults k = .ok s) (hh : env.heights k > lvbh) (hf : k < fuel) :
    (spamLoopGo p tx env lvbh 0 fuel false).2 = .raised (.processTxError timeoutPTError) := by
  have h1 : fuel = k + ((fuel - k - 1) + 1) := by omega
  rw [h1, spamLoopGo_skip p tx env lvbh k 0 ((fuel - k - 1) + 1)
    (fun j _ hj => hclean j (by omega)), Nat.zero_add]
  exact spamLoopGo_step_timeout p tx env lvbh k _ false s hs hh

/-- Running the spam loop through `k` continuing iterations and then one
whose status polls fired while the observed height is still within the
window returns that iteration's signature. -/
theorem spamLoop_reaches_confirm (p : SpamParams) (tx : Tx) (env : SpamEnv)
    (lvbh k fuel : Nat) (s : String)
    (hclean : ∀ j, j < k → spamIterContinues p env lvbh j)
    (hs : env.sendResults k = .ok s) (hw : windowHit p.hit (env.statuses k) = true)
    (hh : env.heights k ≤ lvbh) (hf : k < fuel) :
    (spamLoopGo p tx env lvbh 0 fuel false).2 = .ok s := by
  have h1 : fuel = k + ((fuel - k - 1) + 1) := by omega
  rw [h1, spamLoopGo_skip p tx env lvbh k 0 ((fuel - k - 1) + 1)
    (fun j _ hj => hclean j (by omega)), Nat.zero_add]
  exact spamLoopGo_step_confirm p tx env lvbh k _ false s hs hh hw

/-- Whether a round of the jito resend loop lets the loop continue: the
guarding height observation is below the expiry height and the status
observation is not confirming. -/
def jitoIterContinues (env : JitoEnv) (j : Nat) : Prop :=
  env.heights j < env.lastValidBlockHeight ∧ jitoConfirming (env.statuses j) = false

/-- Running the jito loop through `m` continuing rounds reaches round
`k + m` with the fuel reduced by `m`, having performed exactly `m` resends
on the way. -/
theorem jitoLoopGo_skip (tx : Tx) (env : JitoEnv) (txSig : String) :
    ∀ m k fuel, (∀ j, k ≤ j → j < k + m → jitoIterContinues env j) →
    (jitoLoopGo tx env txSig k (m + fuel)).2 = (jitoLoopGo tx env txSig (k + m) fuel).2 ∧
    (jitoLoopGo tx env txSig k (m + fuel)).1.countP Event.isSend =
      m + (jitoLoopGo tx env txSig (k + m) fuel).1.countP Event.isSend := by
  intro m
  induction m with
  | zero =>
    intro k fuel _
    rw [Nat.zero_add, Nat.add_zero, Nat.zero_add]
    exact ⟨rfl, rfl⟩
  | succ m ih =>
    intro k fuel hclean
    have hk : jitoIterContinues env k := hclean k (Nat.le_refl k) (by omega)
    obtain ⟨hlow, hnc⟩ := hk
    have h1 : m + 1 + fuel = (m + fuel) + 1 := by omega
    rw [h1]
    simp only [jitoLoopGo, if_pos hlow, hnc, Bool.false_eq_true, if_false]
    have h2 := ih (k + 1) fuel (by intro j ha hb; exact hclean j (by omega) (by omega))
    constructor
    · rw [h2.1]
      have : k + 1 + m = k + (m + 1) := by omega
      rw [this]
    · simp only [List.countP_append, List.countP_cons, List.countP_nil, Event.isSend]
      rw [h2.2]
      have : k + 1 + m = k + (m + 1) := by omega
      rw [this]
      simp [Event.isSend]
      omega

/-- A round whose guarding height observation has reached the expiry height
exits the loop and throws the not-confirmed error carrying the relay
signature. -/
theorem jitoLoopGo_step_expired (tx : Tx) (env : JitoEnv) (txSig : String) (k fuel : Nat)
    (hh : env.lastValidBlockHeight ≤ env.heights k) :
    jitoLoopGo tx env txSig k (fuel + 1) =
      ([], .thrown ("Transaction " ++ txSig ++ " was not confirmed")) := by
  simp only [jitoLoopGo]
  rw [if_neg (by omega)]

/-- A round whose guard passes and whose status observation is confirming
returns the relay signature after exactly one resend. -/
theorem jitoLoopGo_step_confirm (tx : Tx) (env : JitoEnv) (txSig : String) (k fuel : Nat)
    (hh : env.heights k < env.lastValidBlockHeight)
    (hc : jitoConfirming (env.statuses k) = true) :
    (jitoLoopGo tx env txSig k (fuel + 1)).2 = .ok txSig ∧
    (jitoLoopGo tx env txSig k (fuel + 1)).1.countP Event.isSend = 1 := by
  constructor
  · simp [jitoLoopGo, if_pos hh, hc]
  · simp [jitoLoopGo, if_pos hh, hc, List.countP_cons, Event.isSend]

/-- Every send event the jito loop emits resends the fixed raw signed bytes
with the fixed resend options. -/
theorem jitoLoopGo_sends (tx : Tx) (env : JitoEnv) (txSig : String) :
    ∀ fuel k, ∀ ev ∈ (jitoLoopGo tx env txSig k fuel).1, ev.isSend = true →
    ev = Event.send tx (jitoResendOpts env.connCommitment) := by
  intro fuel
  induction fuel with
  | zero => intro k ev h; simp [jitoLoopGo] at h
  | succ fuel ih =>
    intro k ev h hsend
    simp only [jitoLoopGo] at h
    split at h
    · split at h
      · simp at h
        rcases h with h | h | h
        · exact h
        · subst h; simp [Event.isSend] at hsend
        · subst h; simp [Event.isSend] at hsend
      · simp at h
        rcases h with h | h | h | h | h
        · exact h
        · subst h; simp [Event.isSend] at hsend
        · subst h; simp [Event.isSend] at hsend
        · subst h; simp [Event.isSend] at hsend
        · exact ih (k + 1) ev h hsend
    · simp at h

/-- Every thrown failure of `processTransaction` is either the direct
`TransactionBuildingError` of the first catch or the classification of the
caught exception by the shared catch block. -/
theorem processTransaction_err_classified (cfg : ClientConfig) (opts : Option TransactionOptions)
    (env : PTEnv) (pe : PTError) (h : (processTransaction cfg opts env).2 = .err pe) :
    pe.errorType = .TransactionBuildingError ∨ ∃ e, pe = classifyCatch cfg.parse e := by
  unfold processTransaction at h
  cases hb : env.blockhashResult with
  | error e =>
    rw [hb] at h
    simp at h
    left
    rw [← h]
  | ok snap =>
    rw [hb] at h
    cases hb2 : env.buildResult with
    | error e =>
      rw [hb2] at h
      simp at h
      left
      rw [← h]
    | ok tx0 =>
      rw [hb2] at h
      simp only at h
      split at h
      · simp at h
      · simp at h
        exact Or.inr ⟨_, h.symm⟩
      · simp at h

/-- Every thrown failure of `sendAndConfirmTransaction` is the
classification of the caught exception by the shared catch block. -/
theorem sendAndConfirm_err_classified (cfg : ClientConfig) (opts : Option TransactionOptions)
    (env : SacEnv) (tx : Tx) (pe : PTError)
    (h : (sendAndConfirmTransaction cfg opts env tx).2 = .err pe) :
    ∃ e, pe = classifyCatch cfg.parse e := by
  unfold sendAndConfirmTransaction at h
  simp only at h
  split at h
  · simp at h
  · simp at h
    exact ⟨_, h.symm⟩
  · simp at h

/-- An event respects the derived minimum context slot when any simulate
call it represents carries exactly `slot - 4` in the default options, and
any status poll it represents carries no context slot at all. -/
def slotDisciplined (slot : Int) (ev : Event) : Prop :=
  (ev.isSimulate = true → ev = Event.simulate (.defaults (slot - 4) false)) ∧
  (ev.isPoll = true → ev.pollMinContextSlot = none)

/-- Events that are neither simulates nor polls are vacuously disciplined. -/
theorem slotDisciplined_of_other (slot : Int) (ev : Event)
    (h1 : ev.isSimulate = false) (h2 : ev.isPoll = false) : slotDisciplined slot ev := by
  constructor
  · intro hx; rw [h1] at hx; cases hx
  · intro hx; rw [h2] at hx; cases hx

/-- The default simulate options are disciplined. -/
theorem slotDisciplined_sim (slot : Int) :
    slotDisciplined slot (Event.simulate (.defaults (slot - 4) false)) := by
  constructor
  · intro _; rfl
  · intro hx; cases hx

/-- A status poll whose options omit the context slot is disciplined. -/
theorem slotDisciplined_poll (slot : Int) (sig : String) (o : StatusOptions)
    (ho : o.minContextSlot = none) :
    slotDisciplined slot (Event.getSignatureStatus sig o) := by
  constructor
  · intro hx; cases hx
  · intro _; exact ho

/-- Every event the spam loop emits is disciplined: it performs no simulate
call and its status polls carry no context slot. -/
theorem spamLoopGo_slot (p : SpamParams) (tx : Tx) (env : SpamEnv) (lvbh : Nat)
    (fuel k : Nat) (status : Bool) (slot : Int) :
    ∀ ev ∈ (spamLoopGo p tx env lvbh k fuel status).1, slotDisciplined slot ev := by
  intro ev h
  rcases spamLoopGo_trace p tx env lvbh fuel k status ev h with h' | h' | h' | ⟨sig, h'⟩ <;>
    subst h'
  · exact slotDisciplined_of_other slot _ rfl rfl
  · exact slotDisciplined_of_other slot _ rfl rfl
  · exact slotDisciplined_of_other slot _ rfl rfl
  · exact slotDisciplined_poll slot sig _ rfl

/-- Every event of the spam-branch preflight with no caller options is the
simulate call carrying the derived minimum context slot. -/
theorem spamPreflight_trace (skipPreflightInSpam : Bool) (minCtx : Int)
    (simResult : Except JsError SimResponse) :
    ∀ ev ∈ (spamPreflight skipPreflightInSpam none minCtx simResult).1,
    ev = Event.simulate (.defaults minCtx false) := by
  intro ev h
  unfold spamPreflight at h
  split at h
  · simp only [simCfgOf] at h
    split at h
    · simp at h
      exact h
    · split at h
      · simp at h
        exact h
      · simp at h
        exact h
  · simp at h

/-- With no caller options, every event of `processTransaction`'s try body
is disciplined with respect to the snapshot's context slot. -/
theorem ptTryBody_slot (cfg : ClientConfig) (env : PTEnv) (snap : BlockhashSnapshot)
    (tx0 : Tx) : ∀ ev ∈ (ptTryBody cfg none env snap tx0).1,
    slotDisciplined snap.contextSlot ev := by
  intro ev h
  unfold ptTryBody at h
  simp only [Option.bind, Option.getD, Bool.false_or, simCfgOf] at h
  split at h
  · split at h
    · simp at h
      subst h
      exact slotDisciplined_sim snap.contextSlot
    · split at h
      · simp at h
        subst h
        exact slotDisciplined_sim snap.contextSlot
      · simp at h
        subst h
        exact slotDisciplined_sim snap.contextSlot
  · split at h
    · simp at h
      subst h
      exact slotDisciplined_of_other _ _ rfl rfl
    · split at h
      · split at h
        · simp at h
          rcases h with h | h
          · subst h
            exact slotDisciplined_of_other _ _ rfl rfl
          · rw [spamPreflight_trace cfg.skipPreflightInSpam _ env.simResult ev h]
            exact slotDisciplined_sim snap.contextSlot
        · simp at h
          rcases h with h | h | h
          · subst h
            exact slotDisciplined_of_other _ _ rfl rfl
          · rw [spamPreflight_trace cfg.skipPreflightInSpam _ env.simResult ev h]
            exact slotDisciplined_sim snap.contextSlot
          · exact spamLoopGo_slot ptSpamParams _ env.spam _ _ _ _ snap.contextSlot ev h
      · split at h
        · simp at h
          rcases h with h | h
          · subst h
            exact slotDisciplined_of_other _ _ rfl rfl
          · subst h
            exact slotDisciplined_of_other _ _ rfl rfl
        · split at h
          · simp at h
            rcases h with h | h | h <;> subst h <;>
              exact slotDisciplined_of_other _ _ rfl rfl
          · simp at h
            rcases h with h | h | h <;> subst h <;>
              exact slotDisciplined_of_other _ _ rfl rfl

/-- With no caller options, every event of `sendAndConfirmTransaction`'s
try body is disciplined with respect to the snapshot's context slot. -/
theorem sacTryBody_slot (cfg : ClientConfig) (env : SacEnv) (snap : BlockhashSnapshot)
    (tx : Tx) (hb : env.blockhashResult = .ok snap) :
    ∀ ev ∈ (sacTryBody cfg none env tx).1, slotDisciplined snap.contextSlot ev := by
  intro ev h
  unfold sacTryBody at h
  rw [hb] at h
  simp only at h
  split at h
  · split at h
    · simp at h
      rcases h with h | h
      · subst h
        exact slotDisciplined_of_other _ _ rfl rfl
      · rw [spamPreflight_trace cfg.skipPreflightInSpam _ env.simResult ev h]
        exact slotDisciplined_sim snap.contextSlot
    · simp at h
      rcases h with h | h | h
      · subst h
        exact slotDisciplined_of_other _ _ rfl rfl
      · rw [spamPreflight_trace cfg.skipPreflightInSpam _ env.simResult ev h]
        exact slotDisciplined_sim snap.contextSlot
      · exact spamLoopGo_slot sacSpamParams _ env.spam _ _ _ _ snap.contextSlot ev h
  · split at h
    · simp at h
      rcases h with h | h <;> subst h <;>
        exact slotDisciplined_of_other _ _ rfl rfl
    · split at h
      · simp at h
        rcases h with h | h | h <;> subst h <;>
          exact slotDisciplined_of_other _ _ rfl rfl
      · simp at h
        rcases h with h | h | h <;> subst h <;>
          exact slotDisciplined_of_other _ _ rfl rfl

/-- C2: in spam mode, for every blockhash snapshot, the send/poll loop
terminates with a `ProcessTransactionError` of kind `TimeoutError` as soon
as an observed current block height strictly exceeds the snapshot's
`lastValidBlockHeight`, even if no confirmation is ever observed — in both
`processTransaction`'s and `sendAndConfirmTransaction`'s spam loops, the
first iteration whose height observation strictly exceeds the bound raises
the typed timeout regardless of that iteration's status polls, and the
loop never continues past that observation. -/
theorem claim_C2_spam_timeout :
    timeoutPTError.errorType = PTErrorType.TimeoutError ∧
    (∀ (tx : Tx) (env : SpamEnv) (lvbh k fuel : Nat) (s : String),
      (∀ j, j < k → spamIterContinues ptSpamParams env lvbh j) →
      env.sendResults k = .ok s → env.heights k > lvbh → k < fuel →
      (spamLoopGo ptSpamParams tx env lvbh 0 fuel false).2 =
        .raised (.processTxError timeoutPTError)) ∧
    (∀ (tx : Tx) (env : SpamEnv) (lvbh k fuel : Nat) (s : String),
      (∀ j, j < k → spamIterContinues sacSpamParams env lvbh j) →
      env.sendResults k = .ok s → env.heights k > lvbh → k < fuel →
      (spamLoopGo sacSpamParams tx env lvbh 0 fuel false).2 =
        .raised (.processTxError timeoutPTError)) := by
  refine ⟨rfl, ?_, ?_⟩
  · intro tx env lvbh k fuel s hclean hs hh hf
    exact spamLoop_reaches_timeout ptSpamParams tx env lvbh k fuel s hclean hs hh hf
  · intro tx env lvbh k fuel s hclean hs hh hf
    exact spamLoop_reaches_timeout sacSpamParams tx env lvbh k fuel s hclean hs hh hf

/-- Concrete transaction used by the witness environments. -/
def txW : Tx :=
  { serializedSize := 200, accountKeyCount := 5, raw := [7, 7], firstSig := "w" }

/-- Witness environment for C2: the send succeeds, no status ever arrives,
and the very first height observation is 11 against an expiry height of 10. -/
def envC2 : SpamEnv :=
  { sendResults := fun _ => .ok "s2", statuses := fun _ _ => none, heights := fun _ => 11 }

/-- Witness for C2 at a concrete environment: the loop raises the typed
timeout on its first iteration. -/
theorem claim_C2_spam_timeout_witness :
    (spamLoopGo ptSpamParams txW envC2 10 0 1 false).2 =
      .raised (.processTxError timeoutPTError) :=
  claim_C2_spam_timeout.2.1 txW envC2 10 0 1 "s2"
    (fun j hj => absurd hj (Nat.not_lt_zero j)) rfl (by decide) (by decide)

/-- C5: in spam mode, every outer loop iteration sends the same signed
transaction bytes with `maxRetries` 0 and polls `getSignatureStatus` at
most 5 times with `searchTransactionHistory` false and a short fixed sleep
between attempts (200 ms in `processTransaction`, 400 ms in
`sendAndConfirmTransaction`); `processTransaction`'s sub-poll fires only on
`finalized`, while `sendAndConfirmTransaction`'s fires on `processed`,
`confirmed` or `finalized`. -/
theorem claim_C5_spam_iteration :
    ptSpamParams.sendOpts.maxRetries = some 0 ∧
    sacSpamParams.sendOpts.maxRetries = some 0 ∧
    ptSpamParams.sleepMs = 200 ∧
    sacSpamParams.sleepMs = 400 ∧
    (∀ (p : SpamParams) (tx : Tx) (env : SpamEnv) (lvbh fuel k : Nat) (status : Bool),
      ∀ ev ∈ (spamLoopGo p tx env lvbh k fuel status).1, ev.isSend = true →
        ev = Event.send tx p.sendOpts) ∧
    (∀ (hit : Option (Option ConfStatus) → Bool) (st : Nat → Option (Option ConfStatus))
        (sig : String) (ms : Nat),
      ((subPoll hit st sig ms).1.countP Event.isPoll) ≤ 5 ∧
      (subPoll hit st sig ms).2 = windowHit hit st ∧
      (∀ ev ∈ (subPoll hit st sig ms).1, ev.isPoll = true →
        ev = Event.getSignatureStatus sig
          { searchTransactionHistory := some false, minContextSlot := none })) ∧
    (∀ v, ptPollHit v = true ↔ v.join = some ConfStatus.finalized) ∧
    (∀ v, sacPollHit v = true ↔
      (v.join = some ConfStatus.processed ∨ v.join = some ConfStatus.confirmed ∨
        v.join = some ConfStatus.finalized)) := by
  refine ⟨rfl, rfl, rfl, rfl, ?_, ?_, ?_, ?_⟩
  · intro p tx env lvbh fuel k status ev h hsend
    rcases spamLoopGo_trace p tx env lvbh fuel k status ev h with h' | h' | h' | ⟨sig, h'⟩ <;>
      subst h'
    · rfl
    · simp [Event.isSend] at hsend
    · simp [Event.isSend] at hsend
    · simp [Event.isSend] at hsend
  · intro hit st sig ms
    refine ⟨?_, subPoll_snd hit st sig ms, ?_⟩
    · have h := subPollList_poll_count hit sig ms (pollWindow st)
      have hl : (pollWindow st).length = 5 := by simp [pollWindow]
      rw [hl] at h
      exact h
    · intro ev h hpoll
      rcases subPoll_trace hit st sig ms ev h with h' | h'
      · exact h'
      · subst h'
        simp [Event.isPoll] at hpoll
  · intro v
    simp [ptPollHit]
  · intro v
    simp [sacPollHit, Bool.or_eq_true, decide_eq_true_eq]
    tauto

/-- Witness for C5 at a concrete sub-poll: the status stream confirms on
the third attempt, the run performs at most five history-less polls, and
the fire condition agrees with the five-observation window. -/
theorem claim_C5_spam_iteration_witness :
    ((subPoll ptPollHit (fun i => if i = 2 then some (some ConfStatus.finalized) else none)
        "w5" 200).1.countP Event.isPoll) ≤ 5 ∧
    (subPoll ptPollHit (fun i => if i = 2 then some (some ConfStatus.finalized) else none)
        "w5" 200).2 =
      windowHit ptPollHit (fun i => if i = 2 then some (some ConfStatus.finalized) else none) ∧
    (∀ ev ∈ (subPoll ptPollHit
        (fun i => if i = 2 then some (some ConfStatus.finalized) else none) "w5" 200).1,
      ev.isPoll = true →
      ev = Event.getSignatureStatus "w5"
        { searchTransactionHistory := some false, minContextSlot := none }) :=
  claim_C5_spam_iteration.2.2.2.2.2.1 ptPollHit
    (fun i => if i = 2 then some (some ConfStatus.finalized) else none) "w5" 200

/-- C6: in every spam-mode loop iteration the status sub-poll runs before
the block-height expiry check, and the expiry check is still evaluated when
confirmation was detected mid-loop: an iteration that both observes a
firing status and a block height strictly above `lastValidBlockHeight`
raises the typed timeout, while the same firing iteration within the window
returns the signature — in both spam loops. -/
theorem claim_C6_status_before_expiry :
    (∀ (tx : Tx) (env : SpamEnv) (lvbh k fuel : Nat) (s : String),
      (∀ j, j < k → spamIterContinues ptSpamParams env lvbh j) →
      env.sendResults k = .ok s → windowHit ptPollHit (env.statuses k) = true → k < fuel →
      ((env.heights k > lvbh →
        (spamLoopGo ptSpamParams tx env lvbh 0 fuel false).2 =
          .raised (.processTxError timeoutPTError)) ∧
       (env.heights k ≤ lvbh →
        (spamLoopGo ptSpamParams tx env lvbh 0 fuel false).2 = .ok s))) ∧
    (∀ (tx : Tx) (env : SpamEnv) (lvbh k fuel : Nat) (s : String),
      (∀ j, j < k → spamIterContinues sacSpamParams env lvbh j) →
      env.sendResults k = .ok s → windowHit sacPollHit (env.statuses k) = true → k < fuel →
      ((env.heights k > lvbh →
        (spamLoopGo sacSpamParams tx env lvbh 0 fuel false).2 =
          .raised (.processTxError timeoutPTError)) ∧
       (env.heights k ≤ lvbh →
        (spamLoopGo sacSpamParams tx env lvbh 0 fuel false).2 = .ok s))) := by
  constructor
  · intro tx env lvbh k fuel s hclean hs hw hf
    exact ⟨fun hh => spamLoop_reaches_timeout ptSpamParams tx env lvbh k fuel s hclean hs hh hf,
      fun hh => spamLoop_reaches_confirm ptSpamParams tx env lvbh k fuel s hclean hs hw hh hf⟩
  · intro tx env lvbh k fuel s hclean hs hw hf
    exact ⟨fun hh => spamLoop_reaches_timeout sacSpamParams tx env lvbh k fuel s hclean hs hh hf,
      fun hh => spamLoop_reaches_confirm sacSpamParams tx env lvbh k fuel s hclean hs hw hh hf⟩

/-- Witness environment for C6: the first iteration both observes a
finalized status on its first poll and a block height of 11 against an
expiry height of 10. -/
def envC6 : SpamEnv :=
  { sendResults := fun _ => .ok "s6"
    statuses := fun _ _ => some (some ConfStatus.finalized)
    heights := fun _ => 11 }

/-- Witness for C6 at a concrete environment: the iteration that observes
both a confirmation and an expired height raises the typed timeout rather
than returning the signature. -/
theorem claim_C6_status_before_expiry_witness :
    (spamLoopGo ptSpamParams txW envC6 10 0 1 false).2 =
      .raised (.processTxError timeoutPTError) :=
  (claim_C6_status_before_expiry.1 txW envC6 10 0 1 "s6"
    (fun j hj => absurd hj (Nat.not_lt_zero j)) rfl (by decide) (by decide)).1 (by decide)

/-- C3: every failure thrown by `processTransaction` or
`sendAndConfirmTransaction` is a `ProcessTransactionError` with a typed
kind: a caught `SendTransactionError` carrying logs becomes
`SimulationError` with description `parseErrorFromLogs(...) ?? message` and
the log lines attached; every other caught error becomes
`FallthroughError` carrying the error's message; and every error either
method throws is the build-phase `TransactionBuildingError` or the image of
the caught exception under this classification — never a silent default. -/
theorem claim_C3_error_classification :
    (∀ (parse : List String → Option String) (m : String) (ls : List String),
      classifyCatch parse (.sendTransactionError m (some ls)) =
        { message := (parse ls).getD m, errorType := .SimulationError, logs := some ls }) ∧
    (∀ (parse : List String → Option String) (e : JsError),
      (∀ m ls, e ≠ .sendTransactionError m (some ls)) →
      classifyCatch parse e =
        { message := e.message, errorType := .FallthroughError, logs := none }) ∧
    (∀ (cfg : ClientConfig) (opts : Option TransactionOptions) (env : PTEnv) (pe : PTError),
      (processTransaction cfg opts env).2 = .err pe →
      pe.errorType = .TransactionBuildingError ∨ ∃ e, pe = classifyCatch cfg.parse e) ∧
    (∀ (cfg : ClientConfig) (opts : Option TransactionOptions) (env : SacEnv) (tx : Tx)
        (pe : PTError),
      (sendAndConfirmTransaction cfg opts env tx).2 = .err pe →
      ∃ e, pe = classifyCatch cfg.parse e) := by
  refine ⟨fun parse m ls => rfl, ?_, ?_, ?_⟩
  · intro parse e hne
    cases e with
    | sendTransactionError m ls =>
      cases ls with
      | none => rfl
      | some ls => exact absurd rfl (hne m ls)
    | processTxError e => rfl
    | generic m => rfl
  · intro cfg opts env pe h
    exact processTransaction_err_classified cfg opts env pe h
  · intro cfg opts env tx pe h
    exact sendAndConfirm_err_classified cfg opts env tx pe h

/-- Log-parser stub used by the concrete witness environments. -/
def parseC3 : List String → Option String := fun _ => some "parsed3"

/-- Concrete client configuration for the C3 witness. -/
def cfgC3 : ClientConfig :=
  { spamSendTx := false, skipPreflightInSpam := false, isReadOnly := false
    parse := parseC3, defaultConfirmOpts := {} }

/-- Concrete environment for the C3 witness: the blockhash fetch itself
throws, so `processTransaction` fails in its build phase. -/
def envC3 : PTEnv :=
  { blockhashResult := .error (.generic "boom3")
    buildResult := .error (.generic "unused")
    walletSignResult := .error (.generic "unused")
    simResult := .error (.generic "unused")
    spam := { sendResults := fun _ => .error (.generic "unused")
              statuses := fun _ _ => none, heights := fun _ => 0 }
    singleSendResult := .error (.generic "unused")
    confirmResult := .ok ()
    connCommitment := none
    fuel := 0 }

/-- The error `processTransaction` throws in the C3 witness environment. -/
def peC3 : PTError :=
  { message := "boom3", errorType := .TransactionBuildingError, logs := none }

/-- Witness for C3 at concrete inputs: the classifier maps a logged
`SendTransactionError` to a `SimulationError` with the parsed description,
maps the in-loop timeout to a `FallthroughError`, and the error thrown by
a concrete failing `processTransaction` run is covered by the
classification disjunction. -/
theorem claim_C3_error_classification_witness :
    classifyCatch parseC3 (.sendTransactionError "m3" (some ["l3"])) =
      { message := "parsed3", errorType := .SimulationError, logs := some ["l3"] } ∧
    classifyCatch parseC3 (.processTxError timeoutPTError) =
      { message := timeoutPTError.message, errorType := .FallthroughError, logs := none } ∧
    (peC3.errorType = .TransactionBuildingError ∨ ∃ e, peC3 = classifyCatch cfgC3.parse e) :=
  ⟨claim_C3_error_classification.1 parseC3 "m3" ["l3"],
   claim_C3_error_classification.2.1 parseC3 (.processTxError timeoutPTError)
     (fun _ _ h => JsError.noConfusion h),
   claim_C3_error_classification.2.2.1 cfgC3 none envC3 peC3 rfl⟩

/-- Concrete snapshot for the C7 counterexample. -/
def snapC7 : BlockhashSnapshot :=
  { blockhash := "b7", lastValidBlockHeight := 100, contextSlot := 50 }

/-- Concrete transaction for the C7 counterexample. -/
def txC7 : Tx :=
  { serializedSize := 300, accountKeyCount := 9, raw := [4], firstSig := "f7" }

/-- Concrete client configuration for the C7 counterexample: spam mode with
the preflight simulation disabled. -/
def cfgC7 : ClientConfig :=
  { spamSendTx := true, skipPreflightInSpam := false, isReadOnly := false
    parse := fun _ => none, defaultConfirmOpts := {} }

/-- Concrete environment for the C7 counterexample: the spam loop's first
iteration confirms on its first status poll inside the height window. -/
def envC7 : PTEnv :=
  { blockhashResult := .ok snapC7
    buildResult := .ok txC7
    walletSignResult := .ok txC7
    simResult := .error (.generic "unused")
    spam := { sendResults := fun _ => .ok "sig7"
              statuses := fun _ _ => some (some ConfStatus.finalized)
              heights := fun _ => 5 }
    singleSendResult := .error (.generic "unused")
    confirmResult := .ok ()
    connCommitment := none
    fuel := 1 }

/-- Counterexample to C7 as stated: in this concrete `processTransaction`
run the derived minimum context slot is `contextSlot - 4 = 46`, yet the
`getSignatureStatus` read it performs does not carry that value (it passes
`{ searchTransactionHistory: false }`, with no context slot at all). -/
theorem claim_C7_counterexample :
    ¬ (∀ ev ∈ (processTransaction cfgC7 none envC7).1, ev.isPoll = true →
        ev.pollMinContextSlot = some (snapC7.contextSlot - 4)) := by
  decide

/-- C7 (amended): each of `processTransaction`, `sendAndConfirmTransaction`
and `signTranscationJito` derives its minimum context slot as exactly the
fetched context slot minus 4, and this derived value — not the raw slot —
is what the default simulation options carry; the status reads carry no
context slot at all. -/
theorem claim_C7_amended :
    (∀ (cfg : ClientConfig) (env : PTEnv) (snap : BlockhashSnapshot),
      env.blockhashResult = .ok snap →
      ∀ ev ∈ (processTransaction cfg none env).1, slotDisciplined snap.contextSlot ev) ∧
    (∀ (cfg : ClientConfig) (env : SacEnv) (snap : BlockhashSnapshot) (tx : Tx),
      env.blockhashResult = .ok snap →
      ∀ ev ∈ (sendAndConfirmTransaction cfg none env tx).1,
        slotDisciplined snap.contextSlot ev) ∧
    (∀ (cfg : ClientConfig) (jitoTip : Int) (env : SjEnv),
      ∀ ev ∈ (signTranscationJito cfg jitoTip env).1,
        slotDisciplined env.snapshot.contextSlot ev) := by
  refine ⟨?_, ?_, ?_⟩
  · intro cfg env snap hb ev h
    unfold processTransaction at h
    rw [hb] at h
    cases hb2 : env.buildResult with
    | error e =>
      rw [hb2] at h
      simp at h
      subst h
      exact slotDisciplined_of_other _ _ rfl rfl
    | ok tx0 =>
      rw [hb2] at h
      simp only [List.mem_cons] at h
      rcases h with h | h
      · subst h
        exact slotDisciplined_of_other _ _ rfl rfl
      · exact ptTryBody_slot cfg env snap tx0 ev h
  · intro cfg env snap tx hb ev h
    exact sacTryBody_slot cfg env snap tx hb ev h
  · intro cfg jitoTip env ev h
    by_cases ht : jitoTip = 0
    · simp [signTranscationJito, ht] at h
    · by_cases hbig : env.compiledTx.serializedSize > 1232 ∨ env.compiledTx.accountKeyCount ≥ 64
      · simp [signTranscationJito, ht, hbig] at h
        subst h
        exact slotDisciplined_of_other _ _ rfl rfl
      · cases hs : env.simResult with
        | error e =>
          simp [signTranscationJito, ht, hbig, hs] at h
          rcases h with h | h <;> subst h
          · exact slotDisciplined_of_other _ _ rfl rfl
          · exact slotDisciplined_sim env.snapshot.contextSlot
        | ok resp =>
          cases hw : env.walletSignResult with
          | error e =>
            simp [signTranscationJito, ht, hbig, hs, hw] at h
            rcases h with h | h | h <;> subst h
            · exact slotDisciplined_of_other _ _ rfl rfl
            · exact slotDisciplined_sim env.snapshot.contextSlot
            · exact slotDisciplined_of_other _ _ rfl rfl
          | ok t1 =>
            simp [signTranscationJito, ht, hbig, hs, hw] at h
            rcases h with h | h | h <;> subst h
            · exact slotDisciplined_of_other _ _ rfl rfl
            · exact slotDisciplined_sim env.snapshot.contextSlot
            · exact slotDisciplined_of_other _ _ rfl rfl

/-- Concrete client configuration for the C7 amended witness: spam mode
with the preflight simulation enabled. -/
def cfgC7w : ClientConfig :=
  { spamSendTx := true, skipPreflightInSpam := true, isReadOnly := false
    parse := fun _ => none, defaultConfirmOpts := {} }

/-- Concrete environment for the C7 amended witness: the preflight
simulation succeeds and the loop confirms on its first iteration. -/
def envC7w : PTEnv :=
  { blockhashResult := .ok snapC7
    buildResult := .ok txC7
    walletSignResult := .ok txC7
    simResult := .ok { err := none, logs := some [], unitsConsumed := 1, accounts := none }
    spam := { sendResults := fun _ => .ok "sig7w"
              statuses := fun _ _ => some (some ConfStatus.finalized)
              heights := fun _ => 5 }
    singleSendResult := .error (.generic "unused")
    confirmResult := .ok ()
    connCommitment := none
    fuel := 1 }

/-- Witness for the amended C7: the simulate call of a concrete spam-mode
`processTransaction` run is disciplined — it carries exactly the derived
`contextSlot - 4`. -/
theorem claim_C7_amended_witness :
    slotDisciplined snapC7.contextSlot
      (Event.simulate (.defaults (snapC7.contextSlot - 4) false)) :=
  claim_C7_amended.1 cfgC7w envC7w snapC7 rfl
    (Event.simulate (.defaults (snapC7.contextSlot - 4) false)) (by decide)

/-- Concrete oversized transaction for the C1 counterexample: 1300 bytes
and 70 resolved account keys. -/
def txC1 : Tx :=
  { serializedSize := 1300, accountKeyCount := 70, raw := [1, 2, 3], firstSig := "f1" }

/-- Concrete client configuration for the C1 counterexample: single-shot
broadcast mode. -/
def cfgC1 : ClientConfig :=
  { spamSendTx := false, skipPreflightInSpam := false, isReadOnly := false
    parse := fun _ => none, defaultConfirmOpts := {} }

/-- Concrete environment for the C1 counterexample: every step succeeds. -/
def envC1 : PTEnv :=
  { blockhashResult := .ok { blockhash := "b1", lastValidBlockHeight := 10, contextSlot := 9 }
    buildResult := .ok txC1
    walletSignResult := .ok txC1
    simResult := .error (.generic "unused")
    spam := { sendResults := fun _ => .error (.generic "unused")
              statuses := fun _ _ => none, heights := fun _ => 0 }
    singleSendResult := .ok "sig1"
    confirmResult := .ok ()
    connCommitment := none
    fuel := 0 }

/-- Counterexample to C1 as stated: `processTransaction` performs no
size/account-count check — on a concrete compiled message of 1300 bytes
resolving 70 account keys it signs with the wallet, sends once, and returns
the signature instead of signaling an oversized-message failure. -/
theorem claim_C1_counterexample :
    txC1.serializedSize > 1232 ∧ txC1.accountKeyCount ≥ 64 ∧
    (processTransaction cfgC1 none envC1).2 = .ok "sig1" ∧
    Event.walletSign ∈ (processTransaction cfgC1 none envC1).1 ∧
    ((processTransaction cfgC1 none envC1).1.countP Event.isSend) = 1 := by
  decide

/-- C1 (amended): only `signTranscationJito` enforces the protocol limits —
whenever its compiled message serializes to more than 1232 bytes or
resolves 64 or more account keys (and the tip guard is passed), it returns
`false` as a plain boolean result, having performed only the blockhash
fetch: the message is never simulated, never wallet-signed and never
submitted.  `processTransaction` and `sendAndConfirmTransaction` perform no
such check. -/
theorem claim_C1_amended : ∀ (cfg : ClientConfig) (jitoTip : Int) (env : SjEnv),
    jitoTip ≠ 0 →
    (env.compiledTx.serializedSize > 1232 ∨ env.compiledTx.accountKeyCount ≥ 64) →
    (signTranscationJito cfg jitoTip env).2 = .tooBig ∧
    (signTranscationJito cfg jitoTip env).1 = [Event.getLatestBlockhashAndContext] := by
  intro cfg t env ht hbig
  constructor
  · simp [signTranscationJito, ht, hbig]
  · simp [signTranscationJito, ht, hbig]

/-- Concrete environment for the C1 amended witness: an oversized compiled
message of 1300 bytes and 70 keys behind a nonzero tip. -/
def envC1w : SjEnv :=
  { snapshot := { blockhash := "b1w", lastValidBlockHeight := 10, contextSlot := 9 }
    compiledTx := txC1
    simResult := .error (.generic "unused")
    walletSignResult := .error (.generic "unused") }

/-- Witness for the amended C1: on the concrete oversized message,
`signTranscationJito` returns the boolean `false` result having only
fetched the blockhash. -/
theorem claim_C1_amended_witness :
    (signTranscationJito cfgC1 7 envC1w).2 = .tooBig ∧
    (signTranscationJito cfgC1 7 envC1w).1 = [Event.getLatestBlockhashAndContext] :=
  claim_C1_amended cfgC1 7 envC1w (by decide) (Or.inl (by decide))

/-- Concrete snapshot for the C4 theorems. -/
def snapC4 : BlockhashSnapshot :=
  { blockhash := "b4", lastValidBlockHeight := 20, contextSlot := 15 }

/-- Concrete transaction for the C4 theorems. -/
def txC4 : Tx :=
  { serializedSize := 400, accountKeyCount := 12, raw := [9], firstSig := "f4" }

/-- Concrete simulation response with a program-level failure for the C4
counterexample. -/
def respC4 : SimResponse :=
  { err := some "e4", logs := some ["l4"], unitsConsumed := 7, accounts := some [some "a4"] }

/-- Concrete environment for the C4 counterexample. -/
def envC4 : StEnv :=
  { blockhashResult := .ok snapC4, buildResult := .ok txC4, simResult := .ok respC4 }

/-- Counterexample to C4 as stated: in this concrete run the RPC simulation
completes with `err != null`, yet the `simulateTransaction` method does not
return a normal result — it throws the rewrapped error (and its return type
exposes only the account snapshots, never consumed compute units or logs). -/
theorem claim_C4_counterexample :
    envC4.simResult = .ok respC4 ∧ respC4.err = some "e4" ∧
    (simulateTransactionMethod ["a"] envC4).2 = .thrown "Error: e4" ∧
    (simulateTransactionMethod ["a"] envC4).2.isOk = false :=
  ⟨rfl, rfl, by decide, by decide⟩

/-- C4 (amended): when the RPC simulation completes, the
`simulateTransaction` method throws `new Error(JSON.stringify(err))`
(rewrapped by its catch) whenever `err != null`, and returns the decoded
account snapshots — only them — when `err` is null. -/
theorem claim_C4_amended : ∀ (accs : List String) (env : StEnv) (snap : BlockhashSnapshot)
    (tx : Tx) (resp : SimResponse),
    env.blockhashResult = .ok snap → env.buildResult = .ok tx → env.simResult = .ok resp →
    ((∀ s, resp.err = some s →
      (simulateTransactionMethod accs env).2 = .thrown ("Error: " ++ s)) ∧
     (resp.err = none →
      (simulateTransactionMethod accs env).2 = .ok (resp.accounts.getD []))) := by
  intro accs env snap tx resp hb hbd hs
  constructor
  · intro s hserr
    simp [simulateTransactionMethod, hb, hbd, hs, hserr]
  · intro hnone
    simp [simulateTransactionMethod, hb, hbd, hs, hnone]

/-- Witness for the amended C4 at the concrete failing simulation. -/
theorem claim_C4_amended_witness :
    (simulateTransactionMethod ["a"] envC4).2 = .thrown "Error: e4" :=
  (claim_C4_amended ["a"] envC4 snapC4 txC4 respC4 rfl rfl rfl).1 "e4" rfl

/-- C8: in `sendAndConfirmTrancationJito`, if no confirming status
(`processed`/`confirmed`/`finalized`) is observed for the relay-assigned
signature before the current block height reaches the snapshot's
`lastValidBlockHeight`, the call throws the dedicated not-confirmed error
whose message carries that signature; if a confirming status is observed
first, the relay-assigned signature is returned, with the raw signed bytes
resent to the primary network on each of the `k + 1` loop rounds run until
then. -/
theorem claim_C8_jito_confirm_or_expire : ∀ (tx : Tx) (env : JitoEnv) (s : String) (k : Nat),
    env.relayResult = .ok s →
    (∀ j, j < k → jitoIterContinues env j) →
    k < env.fuel →
    ((env.lastValidBlockHeight ≤ env.heights k →
      (sendAndConfirmTrancationJito tx env).2 =
        .thrown ("Transaction " ++ s ++ " was not confirmed")) ∧
     (env.heights k < env.lastValidBlockHeight → jitoConfirming (env.statuses k) = true →
      ((sendAndConfirmTrancationJito tx env).2 = .ok s ∧
       (sendAndConfirmTrancationJito tx env).1.countP Event.isSend = k + 1 ∧
       ∀ ev ∈ (sendAndConfirmTrancationJito tx env).1, ev.isSend = true →
         ev = Event.send tx (jitoResendOpts env.connCommitment)))) := by
  intro tx env s k hrelay hclean hf
  have hfe : env.fuel = k + ((env.fuel - k - 1) + 1) := by omega
  have hskip := jitoLoopGo_skip tx env s k 0 ((env.fuel - k - 1) + 1)
    (fun j _ hj => hclean j (by omega))
  rw [Nat.zero_add] at hskip
  have hm2 : (sendAndConfirmTrancationJito tx env).2 = (jitoLoopGo tx env s 0 env.fuel).2 := by
    simp [sendAndConfirmTrancationJito, hrelay]
  have hm1 : (sendAndConfirmTrancationJito tx env).1 =
      Event.relayPost jitoURL :: Event.getLatestBlockhashAndContext ::
        Event.getBlockHeight :: (jitoLoopGo tx env s 0 env.fuel).1 := by
    simp [sendAndConfirmTrancationJito, hrelay]
  constructor
  · intro hexp
    rw [hm2, hfe, hskip.1, jitoLoopGo_step_expired tx env s k _ hexp]
  · intro hlow hconf
    have hstep := jitoLoopGo_step_confirm tx env s k (env.fuel - k - 1) hlow hconf
    refine ⟨?_, ?_, ?_⟩
    · rw [hm2, hfe, hskip.1, hstep.1]
    · rw [hm1]
      simp only [List.countP_cons, Event.isSend]
      rw [hfe, hskip.2, hstep.2]
      simp
    · intro ev hev hsend
      rw [hm1] at hev
      simp only [List.mem_cons] at hev
      rcases hev with hev | hev | hev | hev
      · subst hev; simp [Event.isSend] at hsend
      · subst hev; simp [Event.isSend] at hsend
      · subst hev; simp [Event.isSend] at hsend
      · exact jitoLoopGo_sends tx env s env.fuel 0 ev hev hsend

/-- Concrete environment for the C8 witness: the relay assigns signature
`sj8`, the first round's guard passes (height 5 against expiry 10) and its
status observation is confirming. -/
def envC8 : JitoEnv :=
  { relayResult := .ok "sj8"
    lastValidBlockHeight := 10
    heights := fun _ => 5
    statuses := fun _ => some (some ConfStatus.processed)
    connCommitment := some "confirmed"
    fuel := 3 }

/-- Witness for C8 at a concrete environment: the loop returns the
relay-assigned signature after exactly one resend of the raw bytes. -/
theorem claim_C8_jito_confirm_or_expire_witness :
    (sendAndConfirmTrancationJito txW envC8).2 = .ok "sj8" ∧
    (sendAndConfirmTrancationJito txW envC8).1.countP Event.isSend = 0 + 1 :=
  ((claim_C8_jito_confirm_or_expire txW envC8 "sj8" 0 rfl
      (fun j hj => absurd hj (Nat.not_lt_zero j)) (by decide)).2
    (by decide) (by decide)).elim (fun a b => ⟨a, b.1⟩)

/-- C9: `reload` replaces exactly the `group`, `banks` and `oraclePrices`
fields of the client with the freshly fetched data; every other mutable
field — in particular `addressLookupTables`, loaded once at construction —
is left unchanged by `reload`, and the submission operations never mutate
the client state at all. -/
theorem claim_C9_reload_frame : ∀ (s : ClientState) (d : FetchedGroupData),
    (reload s d).group = d.marginfiGroup ∧
    (reload s d).banks = d.banks ∧
    (reload s d).oraclePrices = d.priceInfos ∧
    (reload s d).addressLookupTables = s.addressLookupTables ∧
    (reload s d).preloadedBankAddresses = s.preloadedBankAddresses ∧
    (reload s d).sendEndpoint = s.sendEndpoint ∧
    (reload s d).spamSendTx = s.spamSendTx ∧
    (reload s d).skipPreflightInSpam = s.skipPreflightInSpam ∧
    processTransactionStateEffect s = s ∧
    sendAndConfirmStateEffect s = s ∧
    jitoStateEffect s = s ∧
    simulateStateEffect s = s := by
  intro s d
  exact ⟨rfl, rfl, rfl, rfl, rfl, rfl, rfl, rfl, rfl, rfl, rfl, rfl⟩

/-- C10: a client built by `MarginfiClient.fetch` whose options omit
`spamSendTx` or `skipPreflightInSpam` has that flag `false` — `fetch`
passes explicit `?? false` defaults that override the constructor's own
parameter defaults of `true` — so a client built via `fetch` without
options broadcasts single-shot: its `processTransaction` takes the
non-spam branch, sending exactly once and waiting on `confirmTransaction`. -/
theorem claim_C10_fetch_defaults :
    (∀ (copts : Option MarginfiClientOptions) (gd : FetchedGroupData) (luts : List Nat),
      (copts.bind (·.spamSendTx)) = none →
      (fetchClient copts gd luts).spamSendTx = false) ∧
    (∀ (copts : Option MarginfiClientOptions) (gd : FetchedGroupData) (luts : List Nat),
      (copts.bind (·.skipPreflightInSpam)) = none →
      (fetchClient copts gd luts).skipPreflightInSpam = false) ∧
    (∀ (g : Nat) (b o : List (String × Nat)) (alt pba : Option (List Nat))
        (se : Option String),
      (mkMarginfiClient g b o alt pba se none none).spamSendTx = true ∧
      (mkMarginfiClient g b o alt pba se none none).skipPreflightInSpam = true) ∧
    (∀ (cfg : ClientConfig) (opts : Option TransactionOptions) (env : PTEnv)
        (snap : BlockhashSnapshot) (tx0 tx1 : Tx) (sig : String),
      cfg.spamSendTx = false → cfg.isReadOnly = false →
      (opts.bind (·.dryRun)).getD false = false →
      env.blockhashResult = .ok snap → env.buildResult = .ok tx0 →
      env.walletSignResult = .ok tx1 → env.singleSendResult = .ok sig →
      env.confirmResult = .ok () →
      ((processTransaction cfg opts env).2 = .ok sig ∧
       ((processTransaction cfg opts env).1.countP Event.isSend) = 1 ∧
       Event.confirmTransaction "finalized" ∈ (processTransaction cfg opts env).1)) := by
  refine ⟨?_, ?_, ?_, ?_⟩
  · intro copts gd luts h
    simp [fetchClient, mkMarginfiClient, h]
  · intro copts gd luts h
    simp [fetchClient, mkMarginfiClient, h]
  · intro g b o alt pba se
    exact ⟨rfl, rfl⟩
  · intro cfg opts env snap tx0 tx1 sig hspam hro hdry hb hbd hw hsend hc
    refine ⟨?_, ?_, ?_⟩ <;>
      simp [processTransaction, ptTryBody, hdry, hro, hspam, hb, hbd, hw, hsend, hc,
        List.countP_cons, Event.isSend]

/-- Concrete fetched group data for the C10 witness. -/
def gdC10 : FetchedGroupData :=
  { marginfiGroup := 1, banks := [("bk", 2)], priceInfos := [("bk", 3)] }

/-- Concrete client configuration for the C10 witness, matching the flags
of a client fetched without options. -/
def cfgC10 : ClientConfig :=
  { spamSendTx := false, skipPreflightInSpam := false, isReadOnly := false
    parse := fun _ => none, defaultConfirmOpts := {} }

/-- Concrete environment for the C10 witness: every single-shot step
succeeds. -/
def envC10 : PTEnv :=
  { blockhashResult := .ok { blockhash := "bA", lastValidBlockHeight := 30, contextSlot := 25 }
    buildResult := .ok txW
    walletSignResult := .ok txW
    simResult := .error (.generic "unused")
    spam := { sendResults := fun _ => .error (.generic "unused")
              statuses := fun _ _ => none, heights := fun _ => 0 }
    singleSendResult := .ok "sigA"
    confirmResult := .ok ()
    connCommitment := none
    fuel := 0 }

/-- Witness for C10 at concrete inputs: fetching without options yields
both flags `false`, the bare constructor defaults them to `true`, and the
resulting client's `processTransaction` single-shot path returns the sent
signature. -/
theorem claim_C10_fetch_defaults_witness :
    (fetchClient none gdC10 [3]).spamSendTx = false ∧
    (fetchClient none gdC10 [3]).skipPreflightInSpam = false ∧
    (mkMarginfiClient 1 [] [] none none none none none).spamSendTx = true ∧
    (processTransaction cfgC10 none envC10).2 = .ok "sigA" :=
  ⟨claim_C10_fetch_defaults.1 none gdC10 [3] rfl,
   claim_C10_fetch_defaults.2.1 none gdC10 [3] rfl,
   (claim_C10_fetch_defaults.2.2.1 1 [] [] none none none).1,
   (claim_C10_fetch_defaults.2.2.2 cfgC10 none envC10
     { blockhash := "bA", lastValidBlockHeight := 30, contextSlot := 25 } txW txW "sigA"
     rfl rfl rfl rfl rfl rfl rfl rfl).1⟩

end Asgard
